import Mathlib

/-!
Shallow embedding of the `tcmb` client library (URL building, auth/status
classification, date normalization, wildcard search, response-to-table
conversion, client facade) together with proofs of the specification
claims about it.

Python strings are modelled as `String` / `List Char`; Python `None` and
exceptional control flow are modelled with `Option` / `Except`.  Machine
floats only occur here as decimal literals parsed from strings, so they
are modelled exactly by `Rat`.
-/

namespace Tcmb

/-- Python exception outcomes that the embedded code can raise. -/
inductive PyErr where
  | valueError
  | unboundLocal
  | keyError
  | attributeError
  | indexError
  deriving DecidableEq, Repr

/-! ## URL builder (`src/tcmb/fetch.py`, `_create_uri`) -/

/-- A query-parameter value: a string, an integer, or Python `None`. -/
inductive QVal where
  | str (s : String)
  | int (n : Int)
  | none
  deriving DecidableEq, Repr

/-- Python `str(v)` on a query value (never applied to `None` by the code). -/
def pyStr : QVal → String
  | .str s => s
  | .int n => toString n
  | .none => "None"

/-- Python `s.rstrip("/")`: remove every trailing `/`. -/
def rstripSlash (s : String) : String :=
  ⟨(s.data.reverse.dropWhile (· == '/')).reverse⟩

/-- `_create_uri` from `fetch.py`: base with trailing slashes stripped, a
`/`, the endpoint suffixed by `/` when present, then `k=v` pairs joined by
`&` for every parameter whose value is not `None`, in order. -/
def _create_uri (params : List (String × QVal)) (endpoint : Option String)
    (base : String) : String :=
  let resolvedBase := rstripSlash base
  let endpointSeg := match endpoint with
    | some e => e ++ "/"
    | Option.none => ""
  let queryStr := String.intercalate "&"
    (params.filterMap fun kv =>
      match kv.2 with
      | QVal.none => Option.none
      | v => some (kv.1 ++ "=" ++ pyStr v))
  resolvedBase ++ "/" ++ endpointSeg ++ queryStr

/-- The query tail as the spec words it: drop `None`-valued parameters,
stringify the rest, join as `k=v` with `&` in insertion order. -/
def specQueryTail (params : List (String × QVal)) : String :=
  String.intercalate "&"
    ((params.filter fun kv => kv.2 ≠ QVal.none).map
      fun kv => kv.1 ++ "=" ++ pyStr kv.2)

/-- The endpoint segment as the spec words it. -/
def specEndpointSeg (endpoint : Option String) : String :=
  match endpoint with
  | some e => e ++ "/"
  | Option.none => ""

/-! ## Response status classifier (`src/tcmb/auth.py`) -/

/-- An HTTP response as `check_status` consumes it: status code, the text
body, the `str()` rendering of the raw content, and whether `.json()`
succeeds. -/
structure HResp where
  status : Nat
  text : String
  contentStr : String
  jsonOk : Bool
  deriving DecidableEq, Repr

/-- Outcome of `check_status`: normal return, or the exception it raises. -/
inductive CheckOutcome where
  | passed
  | apiKeyError
  | invalidSeriesCode
  | jsonDecodeError
  | indexError
  deriving DecidableEq, Repr

/-- `requests.Response.raise_for_status` raises `HTTPError` exactly for
4xx/5xx status codes. -/
def raisesHttpError (status : Nat) : Bool :=
  400 ≤ status && status < 600

/-- Whether `pat` occurs as a contiguous substring of `cs`
(Python `pat in s`). -/
def containsSub (pat : List Char) : List Char → Bool
  | [] => pat.isEmpty
  | c :: rest => pat.isPrefixOf (c :: rest) || containsSub pat rest

/-- Kernel of `re.findall(r"<body>(.*?)</body>", s)` restricted to the first
match: after an occurrence of `<body>`, lazily take characters other than
newline until `</body>`; if a start position has no close, scanning
resumes at the next position.  `_extract_error_message` indexes the first
element of the findall result, so only its emptiness/head matter. -/
def bodyClose (acc : List Char) : List Char → Option (List Char)
  | [] => Option.none
  | c :: rest =>
    if ['<', '/', 'b', 'o', 'd', 'y', '>'].isPrefixOf (c :: rest) then
      some acc.reverse
    else if c = '\n' then Option.none
    else bodyClose (c :: acc) rest

/-- First `<body>(.*?)</body>` capture in `cs`, if any. -/
def findallBody : List Char → Option (List Char)
  | [] => Option.none
  | c :: rest =>
    if ['<', 'b', 'o', 'd', 'y', '>'].isPrefixOf (c :: rest) then
      match bodyClose [] ((c :: rest).drop 6) with
      | some m => some m
      | Option.none => findallBody rest
    else findallBody rest

/-- `check_status` from `auth.py`.  Non-200 responses go through
`raise_for_status`; a caught `HTTPError` leads to message extraction (which
raises `IndexError` when the body has no `<body>...</body>` segment) and
then `ApiKeyError`.  A 200 response whose body fails JSON parsing raises
`InvalidSeriesCode` when the text contains `error-title`, otherwise the
decode error is re-raised. -/
def check_status (r : HResp) : CheckOutcome :=
  if r.status ≠ 200 then
    if raisesHttpError r.status then
      match findallBody r.contentStr.data with
      | some _ => .apiKeyError
      | Option.none => .indexError
    else .passed
  else
    if r.jsonOk then .passed
    else if containsSub "error-title".data r.text.data then .invalidSeriesCode
    else .jsonDecodeError

/-- A concrete 500 response whose content is the generic upstream error
page, with no `<body>...</body>` segment. -/
def respNoBodyTag : HResp :=
  { status := 500
    text := "server error"
    contentStr := "500 Internal Server Error"
    jsonOk := false }

/-! ## Credential resolution and the pre-network behaviour of the
facade (`src/tcmb/core.py`, `src/tcmb/auth.py`) -/

/-- Python `a or b` on optional strings: the empty string is falsy. -/
def pyOrStr (a b : Option String) : Option String :=
  match a with
  | some s => if s = "" then b else some s
  | Option.none => b

/-- The wildcard trigger in `read`: the series string contains `*`, `?`,
or `..`. -/
def hasWildcardTrigger (s : String) : Bool :=
  s.data.contains '*' || s.data.contains '?' || containsSub "..".data s.data

/-- What the module-level `read` does before any byte reaches the network. -/
inductive ReadPre where
  | wildcardLookup
  | raises (e : PyErr)
  | request (uri : String)
  deriving DecidableEq, Repr

/-- The query parameters `read` assembles for a plain (non-wildcard) string
series with default `start`/`end`/`agg`/`formulas`/`freq` arguments;
`today` is `date.today().strftime("%d-%m-%Y")`. -/
def readParams (series : String) (key : Option String) (today : String) :
    List (String × QVal) :=
  [("series", .str series),
   ("startDate", .str "01-01-1970"),
   ("endDate", .str today),
   ("type", .str "json"),
   ("aggregationTypes", QVal.none),
   ("key", match key with | some k => .str k | Option.none => QVal.none),
   ("formulas", QVal.none),
   ("frequency", QVal.none),
   ("decimalSeperator", .str ".")]

/-- The module-level `read` up to the point where `requests.get` is called:
it resolves the key with `api_key or os.environ.get("TCMB_API_KEY")`,
branches into wildcard search when the series string calls for it, and
otherwise proceeds directly to the GET request on the built URI.  There is
no key check on this path. -/
def read_preNetwork (series : String) (apiKeyArg envKey : Option String)
    (today : String) (base : String) : ReadPre :=
  let key := pyOrStr apiKeyArg envKey
  if hasWildcardTrigger series then .wildcardLookup
  else .request (_create_uri (readParams series key today) Option.none base)

/-- What `Client.__init__` does: resolve the key the same way, then
`check_api_key`, which raises `ApiKeyError` when the key is `None` and
otherwise issues a validating GET request. -/
inductive InitPre where
  | raisesApiKeyError
  | validateOverNetwork (key : String)
  deriving DecidableEq, Repr

/-- `Client.__init__` composed with `auth.check_api_key` up to the network
call. -/
def clientInit_preNetwork (apiKeyArg envKey : Option String) : InitPre :=
  match pyOrStr apiKeyArg envKey with
  | Option.none => .raisesApiKeyError
  | some k => .validateOverNetwork k

/-! ## `Client.read` metadata phase (`src/tcmb/core.py`) -/

/-- Series metadata as returned by `get_series_metadata`: a flat JSON
mapping. -/
abbrev MetaJson := List (String × String)

/-- A pandas DataFrame as the claims need it: column names, cell matrix,
and the out-of-band `attrs` mapping. -/
structure PandasDF where
  cols : List String
  cells : List (List (Option Rat))
  attrs : List (String × MetaJson)
  deriving DecidableEq, Repr

/-- The `series` argument of `Client.read`: a string or a list of codes. -/
inductive SeriesArg where
  | one (s : String)
  | many (l : List String)
  deriving DecidableEq, Repr

/-- Python `s.split("-")`, accumulator form. -/
def splitDashAux : List Char → List Char → List String
  | [], acc => [⟨acc.reverse⟩]
  | c :: rest, acc =>
    if c = '-' then ⟨acc.reverse⟩ :: splitDashAux rest []
    else splitDashAux rest (c :: acc)

/-- Python `s.split("-")`. -/
def splitDash (cs : List Char) : List String := splitDashAux cs []

/-- The metadata phase of `Client.read`, given the DataFrame `df` the
underlying `read` produced and the collaborator `fetchMeta` standing for
`self.get_series_metadata`.  The code iterates `series.split("-")` on the
*original* `series` argument, so a list-valued argument raises
`AttributeError`; for a string it performs one metadata fetch per code and
stores the results in `df.attrs`.  The returned list records the codes
fetched, in order. -/
def clientReadMetaPhase (series : SeriesArg) (metadata : Bool)
    (df : PandasDF) (fetchMeta : String → MetaJson) :
    Except PyErr (PandasDF × List String) :=
  if metadata then
    match series with
    | .many _ => .error .attributeError
    | .one s =>
      let codes := splitDash s.data
      .ok ({ df with attrs := codes.map fun c => (c, fetchMeta c) }, codes)
  else .ok (df, [])

/-- A small concrete DataFrame used to instantiate closed statements. -/
def dfSample : PandasDF :=
  { cols := ["TP_DK_USD_S_YTL"], cells := [[some 30]], attrs := [] }

/-! ## Wildcard search (`src/tcmb/utils.py`, `wildcard_search`) -/

/-- `pattern.replace("*", ".*")` followed by `.replace("?", ".")`, at the
character-list level. -/
def translatePattern (cs : List Char) : List Char :=
  ((cs.flatMap fun c => if c = '*' then ['.', '*'] else [c]).map
    fun c => if c = '?' then '.' else c)

/-- A regex atom in the translated pattern language: a literal character or
the any-character class `.` (which excludes newline). -/
inductive RAtom where
  | lit (c : Char)
  | anyChar
  deriving DecidableEq, Repr

/-- A regex token: a plain atom or a starred atom. -/
inductive RTok where
  | atom (a : RAtom)
  | starred (a : RAtom)
  deriving DecidableEq, Repr

/-- The atom a single pattern character denotes. -/
def mkAtom (c : Char) : RAtom :=
  if c = '.' then RAtom.anyChar else RAtom.lit c

/-- Parse the translated pattern into tokens: `.` is the any-character
atom, every other character a literal; a following `*` stars the atom.
(In translated patterns every `*` immediately follows a `.`.) -/
def parseRegex : List Char → List RTok
  | [] => []
  | c :: '*' :: rest2 => .starred (mkAtom c) :: parseRegex rest2
  | c :: rest => .atom (mkAtom c) :: parseRegex rest

/-- Whether an atom matches one character. -/
def matchAtom : RAtom → Char → Bool
  | .lit l, c => c == l
  | .anyChar, c => c != '\n'

/-- The suffixes reachable from `cs` by consuming a run of characters each
matching `a` (including the empty run), in the order regex backtracking
visits them for a lazy-to-greedy existence check. -/
def starSuffixes (a : RAtom) : List Char → List (List Char)
  | [] => [[]]
  | c :: cs =>
    (c :: cs) :: (if matchAtom a c then starSuffixes a cs else [])

/-- Match the token list against a prefix of `cs` (regex existence
semantics). -/
def matchHere : List RTok → List Char → Bool
  | [], _ => true
  | .atom _ :: _, [] => false
  | .atom a :: ts, c :: cs => matchAtom a c && matchHere ts cs
  | .starred a :: ts, cs => (starSuffixes a cs).any fun s => matchHere ts s

/-- `re.search`: the pattern matches at some position of `cs`. -/
def regexSearch (ts : List RTok) : List Char → Bool
  | [] => matchHere ts []
  | c :: cs => matchHere ts (c :: cs) || regexSearch ts cs

/-- `wildcard_search` from `utils.py`, for an explicitly supplied candidate
list (the `items is None` branch loads the same list from package data or a
live fetch before filtering identically). -/
def wildcard_search (pattern : String) (items : List String) : List String :=
  let compiled := parseRegex (translatePattern pattern.data)
  items.filter fun item => regexSearch compiled item.data

/-! ## Date normalizer (`src/tcmb/utils.py`, `standardize_date`) -/

/-- `\d` as a character test. -/
def isDig (c : Char) : Bool :=
  48 ≤ c.toNat && c.toNat ≤ 57

/-- Numeric value of a digit character. -/
def dval (c : Char) : Nat := c.toNat - 48

/-- The digit character for `n % 10`. -/
def digitOf (n : Nat) : Char := Char.ofNat (48 + n % 10)

/-- Value of a two-digit group. -/
def val2 (c1 c2 : Char) : Nat := 10 * dval c1 + dval c2

/-- Value of a four-digit group. -/
def val4 (c1 c2 c3 c4 : Char) : Nat :=
  1000 * dval c1 + 100 * dval c2 + 10 * dval c3 + dval c4

/-- One element of a regex pattern over which the detection patterns are
written: a digit, a fixed literal, or `.` (any character but newline). -/
inductive PatTok where
  | dig
  | lit (c : Char)
  | anyc
  deriving DecidableEq, Repr

/-- Check that `cs` starts with the token sequence (regex prefix match of a
pattern with no alternation). -/
def chk : List PatTok → List Char → Bool
  | [], _ => true
  | _ :: _, [] => false
  | .dig :: ts, c :: cs => isDig c && chk ts cs
  | .lit a :: ts, c :: cs => (c == a) && chk ts cs
  | .anyc :: ts, c :: cs => (c != '\n') && chk ts cs

/-- `re.match(r"\d{1,2}-\d{1,2}-\d{4}", ·)` as the existence of one of the
four digit-count decompositions. -/
def match1 (cs : List Char) : Bool :=
  chk [.dig, .dig, .lit '-', .dig, .dig, .lit '-', .dig, .dig, .dig, .dig] cs ||
  chk [.dig, .dig, .lit '-', .dig, .lit '-', .dig, .dig, .dig, .dig] cs ||
  chk [.dig, .lit '-', .dig, .dig, .lit '-', .dig, .dig, .dig, .dig] cs ||
  chk [.dig, .lit '-', .dig, .lit '-', .dig, .dig, .dig, .dig] cs

/-- `re.match(r"\d{1,2}.\d{1,2}.\d{4}", ·)`; the dots are the regex
any-character class, as in the source. -/
def match2 (cs : List Char) : Bool :=
  chk [.dig, .dig, .anyc, .dig, .dig, .anyc, .dig, .dig, .dig, .dig] cs ||
  chk [.dig, .dig, .anyc, .dig, .anyc, .dig, .dig, .dig, .dig] cs ||
  chk [.dig, .anyc, .dig, .dig, .anyc, .dig, .dig, .dig, .dig] cs ||
  chk [.dig, .anyc, .dig, .anyc, .dig, .dig, .dig, .dig] cs

/-- `re.match(r"\d{4}-\d{1,2}-\d{1,2}", ·)`. -/
def match3 (cs : List Char) : Bool :=
  chk [.dig, .dig, .dig, .dig, .lit '-', .dig, .dig, .lit '-', .dig, .dig] cs ||
  chk [.dig, .dig, .dig, .dig, .lit '-', .dig, .dig, .lit '-', .dig] cs ||
  chk [.dig, .dig, .dig, .dig, .lit '-', .dig, .lit '-', .dig, .dig] cs ||
  chk [.dig, .dig, .dig, .dig, .lit '-', .dig, .lit '-', .dig] cs

/-- `re.match(r"\d{4}.\d{1,2}.\d{1,2}", ·)`; dots again any-character. -/
def match4 (cs : List Char) : Bool :=
  chk [.dig, .dig, .dig, .dig, .anyc, .dig, .dig, .anyc, .dig, .dig] cs ||
  chk [.dig, .dig, .dig, .dig, .anyc, .dig, .dig, .anyc, .dig] cs ||
  chk [.dig, .dig, .dig, .dig, .anyc, .dig, .anyc, .dig, .dig] cs ||
  chk [.dig, .dig, .dig, .dig, .anyc, .dig, .anyc, .dig] cs

/-- The candidate `(value, rest)` parses of a 1-or-2-digit `strptime`
field (`%d` with `maxV = 31`, `%m` with `maxV = 12`), in the order the
compiled alternation tries them: valid two-digit forms first, then a
single nonzero digit. -/
def numCands (maxV : Nat) : List Char → List (Nat × List Char)
  | c1 :: c2 :: rest =>
    (if isDig c1 && isDig c2 && decide (1 ≤ val2 c1 c2) &&
        decide (val2 c1 c2 ≤ maxV) then
      [(val2 c1 c2, rest)] else []) ++
    (if isDig c1 && decide (1 ≤ dval c1) then [(dval c1, c2 :: rest)] else [])
  | [c1] => if isDig c1 && decide (1 ≤ dval c1) then [(dval c1, [])] else []
  | [] => []

/-- `%Y`: exactly four digits. -/
def year4 : List Char → Option (Nat × List Char)
  | c1 :: c2 :: c3 :: c4 :: rest =>
    if isDig c1 && isDig c2 && isDig c3 && isDig c4 then
      some (val4 c1 c2 c3 c4, rest)
    else Option.none
  | _ => Option.none

/-- `datetime.strptime(s, "%d{sep}%m{sep}%Y")`, returning `(d, m, y)` on a
full-string parse. -/
def strptimeDMY (sep : Char) (cs : List Char) : Option (Nat × Nat × Nat) :=
  (numCands 31 cs).findSome? fun dc =>
    match dc.2 with
    | c :: r1 =>
      if c == sep then
        (numCands 12 r1).findSome? fun mc =>
          match mc.2 with
          | c2 :: r2 =>
            if c2 == sep then
              match year4 r2 with
              | some (y, []) => some (dc.1, mc.1, y)
              | _ => Option.none
            else Option.none
          | [] => Option.none
      else Option.none
    | [] => Option.none

/-- `datetime.strptime(s, "%Y{sep}%m{sep}%d")`, returning `(d, m, y)` on a
full-string parse. -/
def strptimeYMD (sep : Char) (cs : List Char) : Option (Nat × Nat × Nat) :=
  match year4 cs with
  | some (y, c :: r1) =>
    if c == sep then
      (numCands 12 r1).findSome? fun mc =>
        match mc.2 with
        | c2 :: r2 =>
          if c2 == sep then
            (numCands 31 r2).findSome? fun dc =>
              match dc.2 with
              | [] => some (dc.1, mc.1, y)
              | _ :: _ => Option.none
          else Option.none
        | [] => Option.none
    else Option.none
  | _ => Option.none

/-- Gregorian leap year, as `datetime` uses it. -/
def isLeap (y : Nat) : Bool :=
  y % 4 == 0 && (y % 100 != 0 || y % 400 == 0)

/-- Days in a month. -/
def daysInMonth (y m : Nat) : Nat :=
  if m = 2 then (if isLeap y then 29 else 28)
  else if m = 4 ∨ m = 6 ∨ m = 9 ∨ m = 11 then 30
  else 31

/-- The `datetime(...)` constructor check applied after the field regexes:
year in `1..9999` and day within the month. -/
def runValid : Option (Nat × Nat × Nat) → Except PyErr (Nat × Nat × Nat)
  | some (d, m, y) =>
    if 1 ≤ y ∧ y ≤ 9999 ∧ d ≤ daysInMonth y m then .ok (d, m, y)
    else .error .valueError
  | Option.none => .error .valueError

/-- Two-digit zero-padded rendering. -/
def pad2 (n : Nat) : List Char := [digitOf (n / 10), digitOf n]

/-- Four-digit zero-padded rendering (the documented `%Y` output format). -/
def pad4 (n : Nat) : List Char :=
  [digitOf (n / 1000), digitOf (n / 100), digitOf (n / 10), digitOf n]

/-- `datetime.strftime("%d-%m-%Y")` on a parsed date. -/
def strftimeDMY (d m y : Nat) : String :=
  ⟨pad2 d ++ '-' :: pad2 m ++ '-' :: pad4 y⟩

/-- `standardize_date` from `utils.py`: the four detection patterns tried
in order, then `strptime`/`strftime` with the detected format; when no
pattern matches, the `date_format` local is never assigned and the final
line raises `UnboundLocalError`. -/
def standardize_date (s : String) : Except PyErr String :=
  let cs := s.data
  if match1 cs then
    (runValid (strptimeDMY '-' cs)).map fun dmy => strftimeDMY dmy.1 dmy.2.1 dmy.2.2
  else if match2 cs then
    (runValid (strptimeDMY '.' cs)).map fun dmy => strftimeDMY dmy.1 dmy.2.1 dmy.2.2
  else if match3 cs then
    (runValid (strptimeYMD '-' cs)).map fun dmy => strftimeDMY dmy.1 dmy.2.1 dmy.2.2
  else if match4 cs then
    (runValid (strptimeYMD '.' cs)).map fun dmy => strftimeDMY dmy.1 dmy.2.1 dmy.2.2
  else .error .unboundLocal

/-! ## Response-to-table converter (`src/tcmb/utils.py`, `to_dataframe`) -/

/-- A calendar date, the index type after `pd.to_datetime`. -/
structure PDate where
  year : Nat
  month : Nat
  day : Nat
  deriving DecidableEq, Repr

/-- The index-granularity formats `to_dataframe` can detect. -/
inductive IdxFmt where
  | dmy
  | my
  | ym
  | yOnly
  deriving DecidableEq, Repr

/-- `re.match(r"\d+-\d+-\d{4}", ·)`: digit run, `-`, digit run, `-`, four
digits. -/
def idxMatchDMY (cs : List Char) : Bool :=
  let p := cs.span (isDig ·)
  match p.1, p.2 with
  | _ :: _, '-' :: r2 =>
    let q := r2.span (isDig ·)
    match q.1, q.2 with
    | _ :: _, '-' :: r4 => decide (4 ≤ (r4.takeWhile (isDig ·)).length)
    | _, _ => false
  | _, _ => false

/-- `re.match(r"\d+-\d{4}", ·)`. -/
def idxMatchMY (cs : List Char) : Bool :=
  let p := cs.span (isDig ·)
  match p.1, p.2 with
  | _ :: _, '-' :: r2 => decide (4 ≤ (r2.takeWhile (isDig ·)).length)
  | _, _ => false

/-- `re.match(r"\d{4}-\d+", ·)`. -/
def idxMatchYM (cs : List Char) : Bool :=
  match cs with
  | c1 :: c2 :: c3 :: c4 :: '-' :: c5 :: _ =>
    isDig c1 && isDig c2 && isDig c3 && isDig c4 && isDig c5
  | _ => false

/-- `re.match(r"\d{4}", ·)`. -/
def idxMatchY (cs : List Char) : Bool :=
  match cs with
  | c1 :: c2 :: c3 :: c4 :: _ => isDig c1 && isDig c2 && isDig c3 && isDig c4
  | _ => false

/-- `pd.to_datetime(·, format=...)` for the four index formats; coarser
granularities parse to the first day of the period. -/
def pdToDatetime (fmt : IdxFmt) (cs : List Char) : Option PDate :=
  match fmt with
  | .dmy =>
    match runValid (strptimeDMY '-' cs) with
    | .ok (d, m, y) => some ⟨y, m, d⟩
    | .error _ => Option.none
  | .my =>
    (numCands 12 cs).findSome? fun mc =>
      match mc.2 with
      | '-' :: r1 =>
        match year4 r1 with
        | some (y, []) =>
          if 1 ≤ y ∧ y ≤ 9999 then some ⟨y, mc.1, 1⟩ else Option.none
        | _ => Option.none
      | _ => Option.none
  | .ym =>
    match year4 cs with
    | some (y, '-' :: r1) =>
      (numCands 12 r1).findSome? fun mc =>
        match mc.2 with
        | [] => if 1 ≤ y ∧ y ≤ 9999 then some ⟨y, mc.1, 1⟩ else Option.none
        | _ :: _ => Option.none
    | _ => Option.none
  | .yOnly =>
    match year4 cs with
    | some (y, []) => if 1 ≤ y ∧ y ≤ 9999 then some ⟨y, 1, 1⟩ else Option.none
    | _ => Option.none

/-- Value of a digit run. -/
def digitsVal (cs : List Char) : Nat :=
  cs.foldl (fun acc c => 10 * acc + dval c) 0

/-- `float(s)` on the decimal strings the service produces: optional sign,
integer digits, optional fractional digits. -/
def parseFloat (cs : List Char) : Option Rat :=
  let p : Bool × List Char :=
    match cs with
    | '-' :: r => (true, r)
    | _ => (false, cs)
  let q := p.2.span (isDig ·)
  let mag : Option Rat :=
    match q.1, q.2 with
    | [], _ => Option.none
    | ip, [] => some ((digitsVal ip : Rat))
    | ip, '.' :: fp =>
      if fp.all (isDig ·) then
        some ((digitsVal ip : Rat) + (digitsVal fp : Rat) / (10 : Rat) ^ fp.length)
      else Option.none
    | _, _ => Option.none
  mag.map fun r => if p.1 then -r else r

/-- The tabular result of `to_dataframe`: a date index, column names, and
float cells (`Option.none` is the missing-value marker `NaN`). -/
structure Table where
  index : List PDate
  cols : List String
  cells : List (List (Option Rat))
  deriving DecidableEq, Repr

deriving instance DecidableEq for Except

/-- Field lookup in a record; a missing field is `NaN`. -/
def cellOf (row : List (String × Option String)) (k : String) : Option String :=
  match row.lookup k with
  | some v => v
  | Option.none => Option.none

/-- `to_dataframe` from `utils.py` on a list of flat records.  It
unconditionally drops the `UNIXTIME` column (`df.drop` raises `KeyError`
when the column is absent), promotes the first remaining field to the
index, detects the index date format from the first index value (an
undetected format leaves the `date_format` local unassigned), parses the
index, coerces every remaining column to float, and drops rows whose
remaining columns are all missing. -/
def to_dataframe (records : List (List (String × Option String))) :
    Except PyErr Table :=
  let cols := (records.head?.map fun r => r.map Prod.fst).getD []
  if "UNIXTIME" ∈ cols then
    match cols.filter (· ≠ "UNIXTIME") with
    | [] => .error .indexError
    | idxCol :: valCols =>
      match (records.map fun r => cellOf r idxCol).mapM id with
      | Option.none => .error .valueError
      | some idxStrs =>
        match idxStrs with
        | [] => .error .indexError
        | first :: _ =>
          let fmt : Option IdxFmt :=
            if idxMatchDMY first.data then some .dmy
            else if idxMatchMY first.data then some .my
            else if idxMatchYM first.data then some .ym
            else if idxMatchY first.data then some .yOnly
            else Option.none
          match fmt with
          | Option.none => .error .unboundLocal
          | some f =>
            match idxStrs.mapM (fun s => pdToDatetime f s.data) with
            | Option.none => .error .valueError
            | some index =>
              let rawRows := records.map fun r => valCols.map fun k => cellOf r k
              match rawRows.mapM (fun row => row.mapM fun cell =>
                  match cell with
                  | Option.none => some Option.none
                  | some s => (parseFloat s.data).map some) with
              | Option.none => .error .valueError
              | some cells =>
                let keep := (index.zip cells).filter fun p =>
                  p.2.any fun c => c.isSome
                .ok ⟨keep.map Prod.fst, valCols, keep.map Prod.snd⟩
  else .error .keyError

/-- Component order of an accepted date shape: day-first or year-first. -/
inductive DateOrder where
  | dmy
  | ymd
  deriving DecidableEq, Repr

/-- Day or month rendered with one digit (unpadded) or two (zero-padded). -/
def renderField (pad : Bool) (n : Nat) : List Char :=
  if pad then pad2 n else [digitOf n]

/-- A date string in one of the four accepted shapes: day-month-year or
year-month-day, separated by `sep`, day and month with one or two digits,
year with four. -/
def renderDate (ord : DateOrder) (sep : Char) (padD padM : Bool)
    (d m y : Nat) : String :=
  match ord with
  | .dmy => ⟨renderField padD d ++ sep :: renderField padM m ++ sep :: pad4 y⟩
  | .ymd => ⟨pad4 y ++ sep :: renderField padM m ++ sep :: renderField padD d⟩

/-- A calendar-valid day/month/year triple in the range `datetime` accepts. -/
def validDmy (d m y : Nat) : Prop :=
  1 ≤ d ∧ d ≤ daysInMonth y m ∧ 1 ≤ m ∧ m ≤ 12 ∧ 1 ≤ y ∧ y ≤ 9999

/-! ## Supporting lemmas -/

theorem filterMap_query_eq (params : List (String × QVal)) :
    (params.filterMap fun kv =>
      match kv.2 with
      | QVal.none => Option.none
      | v => some (kv.1 ++ "=" ++ pyStr v)) =
    ((params.filter fun kv => kv.2 ≠ QVal.none).map
      fun kv => kv.1 ++ "=" ++ pyStr kv.2) := by
  induction params with
  | nil => rfl
  | cons kv rest ih =>
    obtain ⟨k, v⟩ := kv
    cases v <;> simp_all [List.filterMap_cons, List.filter_cons]

theorem daysInMonth_le (y m : Nat) : daysInMonth y m ≤ 31 := by
  unfold daysInMonth
  split <;> (split <;> norm_num)

theorem toNat_digitOf (n : Nat) : (digitOf n).toNat = 48 + n % 10 := by
  have h : n % 10 < 10 := Nat.mod_lt _ (by norm_num)
  unfold digitOf
  set k := n % 10 with hk
  interval_cases k <;> decide

theorem isDig_digitOf (n : Nat) : isDig (digitOf n) = true := by
  simp only [isDig, toNat_digitOf, Bool.and_eq_true, decide_eq_true_eq]
  omega

theorem dval_digitOf (n : Nat) : dval (digitOf n) = n % 10 := by
  simp only [dval, toNat_digitOf]
  omega

theorem digitOf_ne_dash (n : Nat) : (digitOf n == '-') = false := by
  rw [beq_eq_false_iff_ne]
  intro h
  have h2 := congrArg Char.toNat h
  rw [toNat_digitOf, show ('-').toNat = 45 from rfl] at h2
  omega

theorem digitOf_ne_dot (n : Nat) : (digitOf n == '.') = false := by
  rw [beq_eq_false_iff_ne]
  intro h
  have h2 := congrArg Char.toNat h
  rw [toNat_digitOf, show ('.').toNat = 46 from rfl] at h2
  omega

theorem digitOf_ne_nl (n : Nat) : (digitOf n != '\n') = true := by
  rw [bne, Bool.not_eq_true']
  rw [beq_eq_false_iff_ne]
  intro h
  have h2 := congrArg Char.toNat h
  rw [toNat_digitOf, show ('\n').toNat = 10 from rfl] at h2
  omega

theorem isDig_dash : isDig '-' = false := by decide

theorem isDig_dot : isDig '.' = false := by decide

set_option maxHeartbeats 1600000 in
/-- Core correctness of `standardize_date` on every accepted date shape:
a valid calendar date rendered day-first or year-first, dash- or
dot-separated, with padded or unpadded day and month fields, is converted
to the canonical `DD-MM-YYYY` rendering. -/
theorem standardize_render (ord : DateOrder) (sep : Char) (padD padM : Bool)
    (d m y : Nat) (hsep : sep = '-' ∨ sep = '.') (hv : validDmy d m y)
    (hpd : padD = false → d ≤ 9) (hpm : padM = false → m ≤ 9) :
    standardize_date (renderDate ord sep padD padM d m y) =
      .ok (strftimeDMY d m y) := by
  obtain ⟨hd1, hdm, hm1, hm12, hy1, hy9999⟩ := hv
  have hd31 : d ≤ 31 := le_trans hdm (daysInMonth_le y m)
  have hvald : val2 (digitOf (d / 10)) (digitOf d) = d := by
    simp [val2, dval_digitOf]; omega
  have hvalm : val2 (digitOf (m / 10)) (digitOf m) = m := by
    simp [val2, dval_digitOf]; omega
  have hvaly : val4 (digitOf (y / 1000)) (digitOf (y / 100)) (digitOf (y / 10))
      (digitOf y) = y := by
    simp [val4, dval_digitOf]; omega
  have hrv : runValid (some (d, m, y)) = .ok (d, m, y) := by
    simp only [runValid]
    rw [if_pos ⟨hy1, hy9999, hdm⟩]
  cases padD <;> cases padM
  · have hd9v : dval (digitOf d) = d := by
      have h9 := hpd rfl; rw [dval_digitOf]; omega
    have hm9v : dval (digitOf m) = m := by
      have h9 := hpm rfl; rw [dval_digitOf]; omega
    rcases hsep with rfl | rfl <;> cases ord <;>
      simp [renderDate, renderField, standardize_date, match1, match2, match3,
        match4, chk, pad2, pad4, isDig_digitOf, digitOf_ne_dash, digitOf_ne_dot,
        digitOf_ne_nl, isDig_dash, isDig_dot, strptimeDMY, strptimeYMD,
        numCands, year4, hd9v, hm9v, hvaly, hd1, hd31, hm1, hm12, hrv,
        strftimeDMY, List.findSome?, Except.map]
  · have hd9v : dval (digitOf d) = d := by
      have h9 := hpd rfl; rw [dval_digitOf]; omega
    rcases hsep with rfl | rfl <;> cases ord <;>
      simp [renderDate, renderField, standardize_date, match1, match2, match3,
        match4, chk, pad2, pad4, isDig_digitOf, digitOf_ne_dash, digitOf_ne_dot,
        digitOf_ne_nl, isDig_dash, isDig_dot, strptimeDMY, strptimeYMD,
        numCands, year4, hd9v, hvalm, hvaly, hd1, hd31, hm1, hm12, hrv,
        strftimeDMY, List.findSome?, Except.map]
  · have hm9v : dval (digitOf m) = m := by
      have h9 := hpm rfl; rw [dval_digitOf]; omega
    rcases hsep with rfl | rfl <;> cases ord <;>
      simp [renderDate, renderField, standardize_date, match1, match2, match3,
        match4, chk, pad2, pad4, isDig_digitOf, digitOf_ne_dash, digitOf_ne_dot,
        digitOf_ne_nl, isDig_dash, isDig_dot, strptimeDMY, strptimeYMD,
        numCands, year4, hvald, hm9v, hvaly, hd1, hd31, hm1, hm12, hrv,
        strftimeDMY, List.findSome?, Except.map]
  · rcases hsep with rfl | rfl <;> cases ord <;>
      simp [renderDate, renderField, standardize_date, match1, match2, match3,
        match4, chk, pad2, pad4, isDig_digitOf, digitOf_ne_dash, digitOf_ne_dot,
        digitOf_ne_nl, isDig_dash, isDig_dot, strptimeDMY, strptimeYMD,
        numCands, year4, hvald, hvalm, hvaly, hd1, hd31, hm1, hm12, hrv,
        strftimeDMY, List.findSome?, Except.map]

/-- The canonical `DD-MM-YYYY` rendering of a valid date is a fixed point
of `standardize_date`. -/
theorem standardize_canonical (d m y : Nat) (hv : validDmy d m y) :
    standardize_date (strftimeDMY d m y) = .ok (strftimeDMY d m y) := by
  have h := standardize_render .dmy '-' true true d m y (Or.inl rfl) hv
    (by simp) (by simp)
  simpa [renderDate, renderField] using h

/-! ## Claim theorems -/

/-- C1: for every ordered parameter mapping and optional endpoint,
`_create_uri` returns the base URL with trailing slash stripped, `/`, the
endpoint suffixed with `/` when given (empty otherwise), then the query
tail obtained by dropping `None`-valued parameters, stringifying the rest
and joining `key=value` pairs with `&` in insertion order, with no
percent-encoding; in particular `{"a": 1, "b": None, "c": "x"}` with no
endpoint yields exactly `{base}/a=1&c=x`. -/
theorem createUri_builds_spec_url :
    (∀ (params : List (String × QVal)) (endpoint : Option String)
      (base : String),
      _create_uri params endpoint base =
        rstripSlash base ++ "/" ++ specEndpointSeg endpoint ++
          specQueryTail params) ∧
    _create_uri [("a", .int 1), ("b", QVal.none), ("c", .str "x")]
        Option.none "https://evds2.tcmb.gov.tr/service/evds" =
      "https://evds2.tcmb.gov.tr/service/evds" ++ "/a=1&c=x" := by
  constructor
  · intro params endpoint base
    simp only [_create_uri, specEndpointSeg, specQueryTail,
      filterMap_query_eq]
  · rfl

/-- C2 (behaviour at the failing input): with no `api_key` argument and no
`TCMB_API_KEY` in the environment, the module-level `read` does not raise;
it proceeds to issue the GET request, with the `key` parameter silently
dropped from the query string, so the `MissingCredential` check happens
only in `Client.__init__`/`check_api_key`, not on the module-level `read`
path. -/
theorem read_noKey_issues_request :
    read_preNetwork "TP.DK.USD.S.YTL" Option.none Option.none "12-10-2026"
        "https://evds2.tcmb.gov.tr/service/evds" =
      .request ("https://evds2.tcmb.gov.tr/service/evds/" ++
        "series=TP.DK.USD.S.YTL&startDate=01-01-1970&" ++
        "endDate=12-10-2026&type=json&decimalSeperator=.") ∧
    clientInit_preNetwork Option.none Option.none = .raisesApiKeyError := by
  exact ⟨rfl, rfl⟩

/-- C3 (behaviour at the failing input): `to_dataframe` applied to the
single-record list without a `UNIXTIME` field raises `KeyError` (the
`df.drop` call is unconditional), while the same record extended with a
`UNIXTIME` field converts to the one-row table the claim describes. -/
theorem to_dataframe_requires_unixtime :
    to_dataframe [[("Tarih", some "01-01-2024"), ("X", some "30.25")]] =
      .error .keyError ∧
    ∃ q : Rat,
      to_dataframe [[("Tarih", some "01-01-2024"), ("X", some "30.25"),
          ("UNIXTIME", some "1704067200")]] =
        .ok ⟨[⟨2024, 1, 1⟩], ["X"], [[some q]]⟩ ∧
      q = 121 / 4 := by
  refine ⟨rfl, (digitsVal ['3', '0'] : Rat) +
    (digitsVal ['2', '5'] : Rat) / (10 : Rat) ^ (['2', '5'] : List Char).length,
    rfl, ?_⟩
  norm_num [show digitsVal ['3', '0'] = 30 from rfl,
    show digitsVal ['2', '5'] = 25 from rfl,
    show (['2', '5'] : List Char).length = 2 from rfl]

/-- C4: `standardize_date` converts a date string in any of the four
accepted formats (day-first or year-first, dash or dot, day and month with
one or two digits) to the canonical `DD-MM-YYYY` form, detecting the
format by the four prefix patterns tried in fixed order; in particular on
`17.12.2009`, `2011-06-18`, `2018.04.10` and `01-01-2024`. -/
theorem standardize_date_four_formats :
    (∀ (ord : DateOrder) (sep : Char) (padD padM : Bool) (d m y : Nat),
      sep = '-' ∨ sep = '.' → validDmy d m y → (padD = false → d ≤ 9) →
      (padM = false → m ≤ 9) →
      standardize_date (renderDate ord sep padD padM d m y) =
        .ok (strftimeDMY d m y)) ∧
    standardize_date "17.12.2009" = .ok "17-12-2009" ∧
    standardize_date "2011-06-18" = .ok "18-06-2011" ∧
    standardize_date "2018.04.10" = .ok "10-04-2018" ∧
    standardize_date "01-01-2024" = .ok "01-01-2024" := by
  exact ⟨standardize_render, by decide, by decide, by decide, by decide⟩

/-- Witness for C4 at the concrete date 17 December 2009 rendered
dot-separated day-first. -/
theorem standardize_date_four_formats_witness :
    standardize_date (renderDate .dmy '.' true true 17 12 2009) =
      .ok (strftimeDMY 17 12 2009) :=
  standardize_date_four_formats.1 .dmy '.' true true 17 12 2009
    (Or.inr rfl) (by unfold validDmy; decide)
    (fun h => absurd h (by decide)) (fun h => absurd h (by decide))

/-- C5: on every accepted date shape, `standardize_date` is idempotent
when re-applied to its own output. -/
theorem standardize_date_idem :
    ∀ (ord : DateOrder) (sep : Char) (padD padM : Bool) (d m y : Nat),
      sep = '-' ∨ sep = '.' → validDmy d m y → (padD = false → d ≤ 9) →
      (padM = false → m ≤ 9) →
      (standardize_date (renderDate ord sep padD padM d m y)).bind
          standardize_date =
        standardize_date (renderDate ord sep padD padM d m y) := by
  intro ord sep padD padM d m y hsep hv hpd hpm
  rw [standardize_render ord sep padD padM d m y hsep hv hpd hpm]
  simpa [Except.bind] using standardize_canonical d m y hv

/-- Witness for C5 at the concrete date 18 June 2011 rendered
dash-separated year-first. -/
theorem standardize_date_idem_witness :
    (standardize_date (renderDate .ymd '-' true true 18 6 2011)).bind
        standardize_date =
      standardize_date (renderDate .ymd '-' true true 18 6 2011) :=
  standardize_date_idem .ymd '-' true true 18 6 2011
    (Or.inl rfl) (by unfold validDmy; decide)
    (fun h => absurd h (by decide)) (fun h => absurd h (by decide))

/-- C6 (behaviour at the failing input): on an input matching none of the
four detection patterns, `standardize_date` does not fail with a dedicated
unrecognized-format error; the `date_format` local is never assigned and
the function raises `UnboundLocalError`. -/
theorem standardize_date_unmatched_unbound :
    (∀ s : String, match1 s.data = false → match2 s.data = false →
      match3 s.data = false → match4 s.data = false →
      standardize_date s = .error .unboundLocal) ∧
    standardize_date "hello" = .error .unboundLocal := by
  constructor
  · intro s h1 h2 h3 h4
    simp [standardize_date, h1, h2, h3, h4]
  · rfl

/-- Witness for C6 at the concrete unmatched input `hello`. -/
theorem standardize_date_unmatched_unbound_witness :
    standardize_date "hello" = .error .unboundLocal :=
  standardize_date_unmatched_unbound.1 "hello"
    (by decide) (by decide) (by decide) (by decide)

/-- C7: a 200-status response whose body fails JSON parsing is classified
as `InvalidSeriesCode` exactly when the raw text contains the literal
marker `error-title`; otherwise the original decode failure is re-raised
unchanged. -/
theorem check_status_200_nonjson (r : HResp) (h200 : r.status = 200)
    (hjson : r.jsonOk = false) :
    check_status r =
      (if containsSub "error-title".data r.text.data then
        CheckOutcome.invalidSeriesCode
      else CheckOutcome.jsonDecodeError) := by
  simp [check_status, h200, hjson]

/-- Witness for C7 at a concrete 200/non-JSON response containing the
marker. -/
theorem check_status_200_nonjson_witness :
    check_status
        { status := 200, text := "response with error-title marker",
          contentStr := "", jsonOk := false } =
      CheckOutcome.invalidSeriesCode := by
  have h := check_status_200_nonjson
    { status := 200, text := "response with error-title marker",
      contentStr := "", jsonOk := false } rfl rfl
  rw [h]
  decide

/-- C8: `wildcard_search` translates `*` to `.*` and `?` to `.`, leaves
all other characters (dots included) as regex metacharacters, and keeps a
candidate exactly when the translated pattern matches somewhere in it
(case-sensitive, unanchored); in particular `TP.API.REP.TL.A??` keeps
exactly the two `A`-prefixed three-character-suffix codes. -/
theorem wildcard_search_filters :
    (∀ (p : String) (items : List String) (x : String),
      x ∈ wildcard_search p items ↔
        x ∈ items ∧
          regexSearch (parseRegex (translatePattern p.data)) x.data = true) ∧
    wildcard_search "TP.API.REP.TL.A??"
        ["TP.API.REP.TL.A12", "TP.API.REP.TL.A23", "TP.API.REP.TL.G1"] =
      ["TP.API.REP.TL.A12", "TP.API.REP.TL.A23"] := by
  constructor
  · intro p items x
    simp [wildcard_search, List.mem_filter]
  · rfl

/-- C9 counterexample: with a list-valued `series` argument and
`metadata=True`, the metadata block of `Client.read` raises
`AttributeError` (it calls `.split("-")` on the list) instead of fetching
and attaching metadata. -/
theorem clientRead_metadata_list_raises :
    clientReadMetaPhase (.many ["TP.DK.USD.S.YTL", "TP.DK.EUR.S.YTL"]) true
        dfSample (fun _ => []) = .error .attributeError := by
  rfl

/-- C9 (amended): for string `series` arguments (a single code or a
`-`-joined string), `metadata=True` performs one metadata fetch per code
of the `-`-split, and attaches the results in the `attrs` field of the table, leaving
columns and cells unchanged. -/
theorem clientRead_metadata_string_attrs :
    ∀ (s : String) (df : PandasDF) (fetchMeta : String → MetaJson),
      ∃ df2,
        clientReadMetaPhase (.one s) true df fetchMeta =
          .ok (df2, splitDash s.data) ∧
        df2.cols = df.cols ∧ df2.cells = df.cells ∧
        df2.attrs = (splitDash s.data).map fun c => (c, fetchMeta c) := by
  intro s df fetchMeta
  exact ⟨_, rfl, rfl, rfl, rfl⟩

/-- C10: on a 500 response whose content has no `<body>...</body>`
segment, `check_status` does not produce the typed `ApiKeyError`; message
extraction indexes an empty `findall` result and raises `IndexError`. -/
theorem check_status_no_body_indexError :
    check_status respNoBodyTag = .indexError ∧
    check_status respNoBodyTag ≠ .apiKeyError := by
  exact ⟨rfl, by decide⟩

end Tcmb
